import Mathlib

/-!
Shallow embedding of the launch-session supervisor in
src/src-tauri/src/app/gui.rs (Alcaty), together with theorems settling the
frozen claims about it.

Modelling conventions:
* Rust strings are Lean `String`; byte slices are `List Nat` (each entry a
  byte value).
* The `tokio::sync::oneshot` channel created at gui.rs line 126 is identified
  by a natural-number channel id.  A `GuiState` records, besides the guarded
  `runner_instance` slot, which channel ids have had their receiver side
  dropped and which have been signalled, so that the semantics of
  `Sender::send` (fails exactly when the receiver was dropped) is expressible.
* The `f64` arithmetic in the memory computation (gui.rs line 104) is
  modelled exactly as IEEE-754 binary64: values are exact fractions of
  naturals, and each conversion and operation rounds its exact result to the
  nearest representable binary64 value (round to nearest, ties to even,
  exponent clamped at the subnormal limit 2^-1074).  Overflow to infinity is
  not modelled; every value evaluated by the theorems stays far below the
  overflow threshold.  The final `as i64` cast is truncation toward zero.
* The two awaited external calls inside `run_client` (the launch-manifest
  fetch at line 122 and the prelauncher invocation at line 131) are
  external collaborators; their outcomes enter the model as boolean
  parameters.  Mutex poisoning is not modelled: locks always succeed.
-/

namespace Alcaty

/-! ### Accounts (gui.rs lines 96-100)

The `Account` enum itself lives in `minecraft::service`, outside the sources
given; its three variants and their fields are reconstructed exactly from the
destructuring patterns at gui.rs lines 97-99. -/

/-- The fields of the `auth` payload of `Account::MsaAccount` used at
gui.rs line 97. -/
structure MsaAuth where
  name : String
  uuid : String
  token : String
  deriving DecidableEq

/-- The account tagged union, with the variants and fields as destructured at
gui.rs lines 97-99 (`MsaAccount { auth, .. }`,
`MojangAccount { name, token, uuid }`, `OfflineAccount { name, uuid }`). -/
inductive Account where
  | MsaAccount (auth : MsaAuth)
  | MojangAccount (name : String) (token : String) (uuid : String)
  | OfflineAccount (name : String) (uuid : String)
  deriving DecidableEq

/-- The account-resolution `match` at the head of `run_client`
(gui.rs lines 96-100), binding, in this order, the tuple
`(account_name, uuid, token, user_type)`.  The right-hand sides are copied
verbatim from the source:

* `MsaAccount { auth, .. }      => (auth.name, auth.uuid, auth.token, "msa")`
* `MojangAccount { name, token, uuid } => (name, token, uuid, "mojang")`
* `OfflineAccount { name, uuid }       => (name, "-", uuid, "legacy")`

Note that in the Mojang arm the destructured field `token` lands in the
`uuid` tuple position and the field `uuid` in the `token` position, and in
the offline arm the placeholder `"-"` lands in the `uuid` position while the
field `uuid` lands in the `token` position. -/
def resolveAccount : Account → String × String × String × String
  | Account.MsaAccount auth => (auth.name, auth.uuid, auth.token, "msa")
  | Account.MojangAccount name token uuid => (name, token, uuid, "mojang")
  | Account.OfflineAccount name uuid => (name, "-", uuid, "legacy")

/-! ### Launch parameters (gui.rs lines 102-113) -/

/-- The fields of `LauncherOptions` that `run_client` reads
(`options.memory_percentage`, `options.custom_java_path`,
`options.keep_launcher_open`); the struct is declared in `app_data`, outside
the sources given, so only these three fields are modelled. -/
structure LauncherOptions where
  memory_percentage : Nat
  custom_java_path : String
  keep_launcher_open : Bool
  deriving DecidableEq

/-- Modelled from the spec: the "fixed auxiliary identifier"
(`service::AZURE_CLIENT_ID`, gui.rs line 110); its literal value lives in
`minecraft::service`, outside the sources given.  No claim depends on the
literal. -/
def AZURE_CLIENT_ID : String := "azure-client-id"

/-- Struct `LaunchingParameter` as populated at gui.rs lines 103-113.  The struct is
declared in `minecraft::launcher`, outside the sources given; its fields are
reconstructed from the initializer. -/
structure LaunchingParameter where
  memory : Int
  custom_java_path : Option String
  auth_player_name : String
  auth_uuid : String
  auth_access_token : String
  auth_xuid : String
  clientid : String
  user_type : String
  keep_launcher_open : Bool
  deriving DecidableEq

/-! #### IEEE-754 binary64 model

The memory computation at gui.rs line 104 runs in `f64`; the model below
implements binary64 round-to-nearest (ties to even) over exact fractions of
natural numbers, so the rounding of every conversion and operation is
reproduced bit-for-bit (subnormals included via the exponent clamp at
-1074; overflow to infinity is not modelled and is never reached by the
values the theorems evaluate).  `Frac` values are not required to be in
lowest terms; the rounding algorithm is insensitive to that. -/

/-- Fuel-driven floor of the base-2 logarithm: `log2Fuel fuel n` halves `n`
until it drops below 2, consuming one unit of fuel per halving (structural
recursion so that it reduces definitionally, unlike `Nat.log2`). -/
def log2Fuel : Nat → Nat → Nat
  | 0, _ => 0
  | fuel + 1, n => if 2 ≤ n then log2Fuel fuel (n / 2) + 1 else 0

/-- Floor of the base-2 logarithm of a positive natural (`natLog2 0 = 0`);
`n` itself is always enough fuel. -/
def natLog2 (n : Nat) : Nat := log2Fuel n n

/-- A nonnegative exact rational `num / den` (with `den > 0` in every use),
not necessarily in lowest terms. -/
structure Frac where
  num : Nat
  den : Nat
  deriving DecidableEq

/-- Decide `2 ^ e ≤ n / d` for positive `n`, `d` by cross-multiplying with
the appropriate power of two. -/
def twoPowLe (e : Int) (n d : Nat) : Bool :=
  if 0 ≤ e then d * 2 ^ e.toNat ≤ n else d ≤ n * 2 ^ (-e).toNat

/-- Floor of the base-2 logarithm of the positive fraction `n / d`: the
bit-length estimate `natLog2 n - natLog2 d` is exact or one too high, and
the two comparisons correct it. -/
def floorLog2 (n d : Nat) : Int :=
  let k0 : Int := (natLog2 n : Int) - (natLog2 d : Int)
  if twoPowLe (k0 + 1) n d then k0 + 1
  else if twoPowLe k0 n d then k0
  else k0 - 1

/-- Round the nonnegative exact fraction `x` to the nearest IEEE-754
binary64 value (round to nearest, ties to even).  The exponent `e` is chosen
so that `x / 2 ^ e` lies in `[2^52, 2^53)` (clamped at the subnormal limit
-1074); that quotient is rounded to the integer mantissa `m` — on a tie, to
the even neighbour — and the result is `m * 2 ^ e`. -/
def roundF64 (x : Frac) : Frac :=
  if x.num = 0 then ⟨0, 1⟩
  else
    let e0 : Int := floorLog2 x.num x.den - 52
    let e : Int := if e0 < -1074 then -1074 else e0
    let sn : Nat := if 0 ≤ e then x.num else x.num * 2 ^ (-e).toNat
    let sd : Nat := if 0 ≤ e then x.den * 2 ^ e.toNat else x.den
    let q : Nat := sn / sd
    let r : Nat := sn % sd
    let m : Nat :=
      if 2 * r < sd then q
      else if sd < 2 * r then q + 1
      else if q % 2 = 0 then q else q + 1
    if 0 ≤ e then ⟨m * 2 ^ e.toNat, 1⟩ else ⟨m, 2 ^ (-e).toNat⟩

/-- Conversion of an unsigned integer to `f64` (`as f64`): exact for values
below 2^53, rounded to nearest even above. -/
def f64OfNat (n : Nat) : Frac := roundF64 ⟨n, 1⟩

/-- Binary64 multiplication: the exact product, correctly rounded. -/
def f64Mul (x y : Frac) : Frac := roundF64 ⟨x.num * y.num, x.den * y.den⟩

/-- Binary64 division: the exact quotient, correctly rounded. -/
def f64Div (x y : Frac) : Frac := roundF64 ⟨x.num * y.den, x.den * y.num⟩

/-- The memory computation at gui.rs line 104:
`((sys.total_memory() / 1000000) as f64 * (options.memory_percentage as f64 / 100.0)) as i64`.
The integer division `total_memory / 1000000` is Rust `u64` division; the
two casts, the division by the literal `100.0` and the multiplication are
IEEE-754 binary64 operations; the final `as i64` truncates toward zero
(every value here is nonnegative, so Nat division is that truncation). -/
def computedMemory (total_memory : Nat) (memory_percentage : Nat) : Int :=
  let x : Frac :=
    f64Mul (f64OfNat (total_memory / 1000000))
      (f64Div (f64OfNat memory_percentage) ⟨100, 1⟩)
  ((x.num / x.den : Nat) : Int)

/-- Modelled from the spec's words, for comparison with `computedMemory`:
"allocated_memory_mb = floor(M / 1,000,000) * (p / 100), truncated to
integer megabytes", computed in exact arithmetic. -/
def specAllocatedMemory (M p : Nat) : Int :=
  ⌊((M / 1000000 : ℕ) : ℚ) * ((p : ℚ) / 100)⌋

/-- The `LaunchingParameter` initializer at gui.rs lines 103-113, fed by the
account-resolution tuple of lines 96-100. -/
def buildParameters (account_data : Account) (options : LauncherOptions)
    (total_memory : Nat) : LaunchingParameter :=
  match resolveAccount account_data with
  | (account_name, uuid, token, user_type) =>
    { memory := computedMemory total_memory options.memory_percentage
      custom_java_path :=
        if options.custom_java_path.isEmpty = false then
          some options.custom_java_path
        else
          none
      auth_player_name := account_name
      auth_uuid := uuid
      auth_access_token := token
      auth_xuid := "x"
      clientid := AZURE_CLIENT_ID
      user_type := user_type
      keep_launcher_open := options.keep_launcher_open }

/-! ### Supervisor state (gui.rs lines 13-19, 126, 189-191)

`AppState.runner_instance` is an `Arc<Mutex<Option<RunnerInstance>>>`,
initialized to `None` at gui.rs line 190.  Besides the slot, `GuiState`
carries the status of the oneshot channels, so that the behaviour of
`Sender::send` in `terminate` is expressible: `dropped` lists the channel
ids whose receiver side has been dropped (this happens when the prelauncher
future, which owns `terminator_rx` through `LauncherData`, completes), and
`signaled` lists the channel ids on which the oneshot signal was sent. -/

/-- Struct `RunnerInstance` (gui.rs lines 13-15): holds the oneshot sender,
identified here by its channel id. -/
structure RunnerInstance where
  terminator : Nat
  deriving DecidableEq

/-- The process-wide supervisor state: the guarded slot of `AppState`
(gui.rs lines 17-19) plus the status of the oneshot channels. -/
structure GuiState where
  runner_instance : Option RunnerInstance
  dropped : List Nat
  signaled : List Nat
  deriving DecidableEq

/-- The supervisor state at process start (gui.rs line 190): empty slot, no
channels created yet. -/
def initialState : GuiState :=
  { runner_instance := none, dropped := [], signaled := [] }

/-! ### run_client, big-step (gui.rs lines 95-149)

Sequential (big-step) embedding of one `run_client` invocation run to
completion without interference; the interleaved small-step model used for
the concurrency claims comes later.  The outcomes of the two awaited
external calls are parameters: `manifestOk` for the launch-manifest fetch
(line 122) and `launchOk` for the prelauncher invocation (line 131); `ch` is
the id of the fresh oneshot channel created at line 126.  When the
prelauncher future completes (either way), the receiver `terminator_rx` it
owns is dropped, so `ch` joins `dropped`.  Error strings keep the source's
prefixes with the formatted payload elided. -/

/-- Big-step embedding of `run_client` (gui.rs lines 95-149).  Mirrors the
source order: resolve the account and build the parameters (lines 96-113),
check the slot and bail out if occupied (lines 117-119), fetch the manifest
(lines 122-124), create the channel and store the sender (lines 126-129),
invoke the prelauncher (lines 131-143) — on failure the `?` operator returns
without reaching the slot-clearing statement — and clear the slot
(lines 145-146). -/
def run_client (account_data : Account) (options : LauncherOptions)
    (total_memory : Nat) (manifestOk : Bool) (launchOk : Bool) (ch : Nat)
    (st : GuiState) : Except String Unit × GuiState :=
  let _parameters := buildParameters account_data options total_memory
  if (st.runner_instance.isSome : Bool) then
    (Except.error "client is already running", st)
  else if manifestOk = false then
    (Except.error "unable to request launch manifest", st)
  else
    let st1 : GuiState :=
      { st with runner_instance := some { terminator := ch } }
    if launchOk = false then
      (Except.error "failed to launch client",
        { st1 with dropped := ch :: st1.dropped })
    else
      (Except.ok (),
        { st1 with runner_instance := none, dropped := ch :: st1.dropped })

/-! ### terminate (gui.rs lines 151-161) -/

/-- The observable outcome of `terminate`: `ok` for `Ok(())`, `panicked` for
the panic raised by `.unwrap()` at gui.rs line 158 when the oneshot send
fails. -/
inductive TerminateResult where
  | ok
  | panicked
  deriving DecidableEq

/-- Embedding of `terminate` (gui.rs lines 151-161): under the lock,
`lck.take()` removes and returns the slot's content.  If an instance was
present, `inst.terminator.send(()).unwrap()` is executed: the oneshot send
succeeds exactly when the receiver side has not been dropped, and `.unwrap()`
on a failed send panics.  If the slot was empty, nothing happens and `Ok(())`
is returned. -/
def terminate (st : GuiState) : TerminateResult × GuiState :=
  match st.runner_instance with
  | some inst =>
    if inst.terminator ∈ st.dropped then
      (TerminateResult.panicked, { st with runner_instance := none })
    else
      (TerminateResult.ok,
        { st with runner_instance := none
                  signaled := inst.terminator :: st.signaled })
  | none => (TerminateResult.ok, st)

/-! ### Interleaved small-step model (gui.rs lines 115-161)

`run_client` holds the `runner_instance` mutex only for the duration of each
individual slot access: the `is_some` check at line 117 is one critical
section, the store at lines 128-129 another, the clear at lines 145-146 a
third, and `terminate`'s take-and-send (lines 153-159) a fourth; the two
`await`s (manifest fetch, prelauncher invocation) run outside any critical
section.  The model below makes each critical section one atomic step and
lets the steps of two concurrent `run_client` invocations (threads `a` and
`b`) and of `terminate` commands interleave arbitrarily.  Completing an
awaited call is bundled with the critical section that immediately follows
it (manifest-fetch completion with the channel creation and sender store;
prelauncher completion with the receiver drop, and, on success, with the
slot clear); bundling only removes interleavings, so every trace of this
model is a behaviour of the source. -/

/-- Identifies one of the two concurrent `run_client` invocations. -/
inductive Tid where
  | a
  | b
  deriving DecidableEq

/-- How a `run_client` invocation ended in the small-step model. -/
inductive RunOutcome where
  | ok
  | errAlreadyRunning
  | errManifest
  | errLaunch
  deriving DecidableEq

/-- The program point of one `run_client` invocation:
`start` is before the `is_some` check (line 117); `fetching` is during the
manifest-fetch await (line 122), reached after the check observed an empty
slot; `launching ch` is during the prelauncher await (line 131), after the
sender of the fresh channel `ch` was stored in the slot (lines 126-129);
`finished r` is after return. -/
inductive ThreadPhase where
  | start
  | fetching
  | launching (ch : Nat)
  | finished (r : RunOutcome)
  deriving DecidableEq

/-- State of the interleaved system: the shared supervisor state plus the
program point of each of the two `run_client` invocations. -/
structure SysState where
  shared : GuiState
  phaseA : ThreadPhase
  phaseB : ThreadPhase
  deriving DecidableEq

/-- Both invocations poised at their slot check, supervisor state fresh. -/
def initSys : SysState :=
  { shared := initialState, phaseA := ThreadPhase.start
    phaseB := ThreadPhase.start }

/-- Read the program point of thread `t`. -/
def SysState.phase (s : SysState) : Tid → ThreadPhase
  | Tid.a => s.phaseA
  | Tid.b => s.phaseB

/-- Replace the program point of thread `t`. -/
def SysState.setPhase (s : SysState) (t : Tid) (p : ThreadPhase) : SysState :=
  match t with
  | Tid.a => { s with phaseA := p }
  | Tid.b => { s with phaseB := p }

/-- The atomic actions of the interleaved system.  `check t` is thread `t`'s
critical section at gui.rs lines 117-119; `fetchOk t ch` is the completion of
`t`'s manifest fetch followed by the critical section at lines 126-129 that
stores the sender of the fresh channel `ch` (the store is unconditional: it
does not re-check the slot); `fetchFail t` is the early return at line 124;
`launchOk t` is the completion of `t`'s prelauncher call followed by the
clearing critical section at lines 145-146; `launchFail t` is the early
return at line 143, which drops the receiver but leaves the slot untouched;
`cancel` is one full `terminate` command (lines 151-161). -/
inductive Act where
  | check (t : Tid)
  | fetchOk (t : Tid) (ch : Nat)
  | fetchFail (t : Tid)
  | launchOk (t : Tid)
  | launchFail (t : Tid)
  | cancel
  deriving DecidableEq

/-- One atomic step of the interleaved system; `none` when the action is not
enabled at the current program point.  In `cancel`, a send on a channel with
a dropped receiver panics (gui.rs line 158) after the slot was already taken;
the panic is recorded by not adding the channel to `signaled`. -/
def stepAct (s : SysState) : Act → Option SysState
  | Act.check t =>
    match s.phase t with
    | ThreadPhase.start =>
      if (s.shared.runner_instance.isSome : Bool) then
        some (s.setPhase t (ThreadPhase.finished RunOutcome.errAlreadyRunning))
      else
        some (s.setPhase t ThreadPhase.fetching)
    | _ => none
  | Act.fetchOk t ch =>
    match s.phase t with
    | ThreadPhase.fetching =>
      some { s.setPhase t (ThreadPhase.launching ch) with
               shared := { s.shared with
                             runner_instance := some { terminator := ch } } }
    | _ => none
  | Act.fetchFail t =>
    match s.phase t with
    | ThreadPhase.fetching =>
      some (s.setPhase t (ThreadPhase.finished RunOutcome.errManifest))
    | _ => none
  | Act.launchOk t =>
    match s.phase t with
    | ThreadPhase.launching ch =>
      some { s.setPhase t (ThreadPhase.finished RunOutcome.ok) with
               shared := { s.shared with
                             runner_instance := none
                             dropped := ch :: s.shared.dropped } }
    | _ => none
  | Act.launchFail t =>
    match s.phase t with
    | ThreadPhase.launching ch =>
      some { s.setPhase t (ThreadPhase.finished RunOutcome.errLaunch) with
               shared := { s.shared with dropped := ch :: s.shared.dropped } }
    | _ => none
  | Act.cancel =>
    match s.shared.runner_instance with
    | some inst =>
      if inst.terminator ∈ s.shared.dropped then
        some { s with shared := { s.shared with runner_instance := none } }
      else
        some { s with shared :=
                 { s.shared with
                     runner_instance := none
                     signaled := inst.terminator :: s.shared.signaled } }
    | none => some s

/-- Run a sequence of atomic actions from a state; `none` if some action in
the sequence is not enabled. -/
def execTrace (s : SysState) : List Act → Option SysState
  | [] => some s
  | act :: rest =>
    match stepAct s act with
    | some s2 => execTrace s2 rest
    | none => none

/-! ### Event bridge (gui.rs lines 79-92)

`handle_stdout` and `handle_stderr` each decode the byte chunk with
`String::from_utf8` and, on success, emit the decoded text on the window
under the event name `"process-output"`.  `String::from_utf8` performs
standard UTF-8 validation (RFC 3629): it rejects stray continuation bytes,
overlong encodings, surrogate code points and code points above `0x10FFFF`.
`utf8Decode` below implements exactly that validation, returning the decoded
scalar values.  The window is modelled by the ordered list of events emitted
on it; `Window::emit` is modelled as always succeeding (the `SinkError` side
of the contract concerns a collaborator outside the sources given). -/

/-- Is `b` a UTF-8 continuation byte (`0x80..=0xBF`)? -/
def isCont (b : Nat) : Bool :=
  0x80 ≤ b && b ≤ 0xBF

/-- UTF-8 validation and decoding exactly as performed by Rust
`String::from_utf8` (RFC 3629): `none` on invalid input, otherwise the list
of decoded Unicode scalar values.  Lead-byte ranges: `0x00..=0x7F` one byte;
`0xC2..=0xDF` two bytes; `0xE0..=0xEF` three bytes, with the second byte
restricted to `0xA0..=0xBF` after `0xE0` (no overlongs) and to `0x80..=0x9F`
after `0xED` (no surrogates); `0xF0..=0xF4` four bytes, with the second byte
restricted to `0x90..=0xBF` after `0xF0` (no overlongs) and to `0x80..=0x8F`
after `0xF4` (maximum `0x10FFFF`).  Everything else is invalid. -/
def utf8Decode : List Nat → Option (List Nat)
  | [] => some []
  | b0 :: rest =>
    if b0 ≤ 0x7F then
      (utf8Decode rest).map (fun cs => b0 :: cs)
    else if 0xC2 ≤ b0 && b0 ≤ 0xDF then
      match rest with
      | b1 :: rest1 =>
        if isCont b1 then
          (utf8Decode rest1).map
            (fun cs => ((b0 - 0xC0) * 0x40 + (b1 - 0x80)) :: cs)
        else none
      | [] => none
    else if 0xE0 ≤ b0 && b0 ≤ 0xEF then
      match rest with
      | b1 :: b2 :: rest2 =>
        if (if b0 = 0xE0 then 0xA0 ≤ b1 && b1 ≤ 0xBF
            else if b0 = 0xED then 0x80 ≤ b1 && b1 ≤ 0x9F
            else isCont b1) && isCont b2 then
          (utf8Decode rest2).map
            (fun cs =>
              ((b0 - 0xE0) * 0x1000 + (b1 - 0x80) * 0x40 + (b2 - 0x80)) :: cs)
        else none
      | _ => none
    else if 0xF0 ≤ b0 && b0 ≤ 0xF4 then
      match rest with
      | b1 :: b2 :: b3 :: rest3 =>
        if (if b0 = 0xF0 then 0x90 ≤ b1 && b1 ≤ 0xBF
            else if b0 = 0xF4 then 0x80 ≤ b1 && b1 ≤ 0x8F
            else isCont b1) && isCont b2 && isCont b3 then
          (utf8Decode rest3).map
            (fun cs =>
              ((b0 - 0xF0) * 0x40000 + (b1 - 0x80) * 0x1000 +
                (b2 - 0x80) * 0x40 + (b3 - 0x80)) :: cs)
        else none
      | _ => none
    else none

/-- The UI window, modelled by the ordered list of
`(event name, decoded payload)` pairs emitted on it. -/
structure Window where
  events : List (String × List Nat)
  deriving DecidableEq

/-- Method `Window::emit` (as used at gui.rs lines 80, 85): append one event. -/
def emit (window : Window) (event : String) (payload : List Nat) : Window :=
  { events := window.events ++ [(event, payload)] }

/-- The error with which `handle_stdout`/`handle_stderr` fail when
`String::from_utf8` rejects the bytes. -/
inductive HandlerError where
  | fromUtf8Error
  deriving DecidableEq

/-- Function `handle_stdout` (gui.rs lines 79-82):
`window.lock().unwrap().emit("process-output", String::from_utf8(data.to_vec())?)`.
The `?` propagates the decoding failure before any emission; on success
exactly one event is emitted. -/
def handle_stdout (window : Window) (data : List Nat) :
    Except HandlerError Window :=
  match utf8Decode data with
  | none => Except.error HandlerError.fromUtf8Error
  | some s => Except.ok (emit window "process-output" s)

/-- Function `handle_stderr` (gui.rs lines 84-87): byte-for-byte the same body as
`handle_stdout`, emitting under the same event name `"process-output"`. -/
def handle_stderr (window : Window) (data : List Nat) :
    Except HandlerError Window :=
  match utf8Decode data with
  | none => Except.error HandlerError.fromUtf8Error
  | some s => Except.ok (emit window "process-output" s)

/-! ### Claim theorems -/

/-- C1: the claim says that for the legacy-network (Mojang) variant the
access token equals the stored access token and the subject id equals the
stored subject id, and that for the offline variant the access token is the
fixed placeholder.  The code violates this: in the Mojang arm of the match at
gui.rs line 98 the stored `token` lands in the `uuid` (subject-id) tuple
position and the stored `uuid` in the `token` (access-token) position, and in
the offline arm at line 99 the placeholder `"-"` lands in the subject-id
position while the stored `uuid` lands in the access-token position.  This
theorem evaluates the resolution and the resulting `LaunchingParameter` at
concrete failing inputs: the tuple position order is
`(account_name, uuid, token, user_type)`, so the Mojang account with stored
token `"tok"` and stored uuid `"uid"` gets `auth_uuid = "tok"` and
`auth_access_token = "uid"`, and the offline account gets
`auth_uuid = "-"` and `auth_access_token = "uid"`. -/
theorem c1_account_resolution_misroutes_fields :
    resolveAccount (Account.MojangAccount "n" "tok" "uid")
      = ("n", "tok", "uid", "mojang")
    ∧ (buildParameters (Account.MojangAccount "n" "tok" "uid")
        { memory_percentage := 50, custom_java_path := ""
          keep_launcher_open := false } 0).auth_uuid = "tok"
    ∧ (buildParameters (Account.MojangAccount "n" "tok" "uid")
        { memory_percentage := 50, custom_java_path := ""
          keep_launcher_open := false } 0).auth_access_token = "uid"
    ∧ (buildParameters (Account.OfflineAccount "n" "uid")
        { memory_percentage := 50, custom_java_path := ""
          keep_launcher_open := false } 0).auth_uuid = "-"
    ∧ (buildParameters (Account.OfflineAccount "n" "uid")
        { memory_percentage := 50, custom_java_path := ""
          keep_launcher_open := false } 0).auth_access_token = "uid" :=
  ⟨rfl, rfl, rfl, rfl, rfl⟩

/-- C2: the claim says every `run_client` execution that populates the
session slot clears it before returning, on every exit path.  The code
violates this on the prelauncher-failure path: the `?` operator at gui.rs
line 143 returns before the clearing statement at lines 145-146, so the slot
stays occupied forever.  First conjunct: from the empty initial state, with
the manifest fetch succeeding and the prelauncher failing, `run_client`
returns the launch error with the slot still holding the stored instance
(channel 7, whose receiver is by then dropped).  Second conjunct: on the
success path the slot is cleared, so the leak is specific to the failure
path. -/
theorem c2_failed_launch_leaves_slot_occupied :
    run_client (Account.OfflineAccount "n" "u")
        { memory_percentage := 50, custom_java_path := ""
          keep_launcher_open := false } 0 true false 7 initialState
      = (Except.error "failed to launch client",
         { runner_instance := some { terminator := 7 }
           dropped := [7], signaled := [] })
    ∧ (run_client (Account.OfflineAccount "n" "u")
        { memory_percentage := 50, custom_java_path := ""
          keep_launcher_open := false } 0 true true 7
        initialState).2.runner_instance = none :=
  ⟨rfl, rfl⟩

/-- C3: when the session slot is occupied, `run_client` returns the
"client is already running" error (gui.rs lines 117-119) immediately — every
external-call outcome gives the same result, so nothing is awaited or
queued — and the supervisor state is returned unchanged. -/
theorem c3_already_running_rejected (account_data : Account)
    (options : LauncherOptions) (total_memory : Nat)
    (manifestOk launchOk : Bool) (ch : Nat) (st : GuiState)
    (h : st.runner_instance.isSome = true) :
    run_client account_data options total_memory manifestOk launchOk ch st
      = (Except.error "client is already running", st) := by
  simp [run_client, h]

/-- Witness for C3 at a concrete occupied state. -/
theorem c3_witness :
    run_client (Account.OfflineAccount "n" "u")
        { memory_percentage := 50, custom_java_path := ""
          keep_launcher_open := false } 0 true true 3
        { runner_instance := some { terminator := 9 }
          dropped := [], signaled := [] }
      = (Except.error "client is already running",
         { runner_instance := some { terminator := 9 }
           dropped := [], signaled := [] }) :=
  c3_already_running_rejected _ _ _ _ _ _ _ rfl

/-- C6: the claim says the cancellation send in `terminate` is harmless in
every state — in particular, when the receiver side of the oneshot channel
has already been dropped the send must not crash.  The code violates this:
`inst.terminator.send(()).unwrap()` at gui.rs line 158 panics when the send
fails, and the send fails exactly when the receiver was dropped.  The failing
state is reachable: after a `run_client` whose prelauncher invocation failed
(first conjunct, reusing the leak of the failure path), the slot holds the
sender of channel 7 while channel 7's receiver is dropped; `terminate` called
there panics (second conjunct). -/
theorem c6_terminate_panics_on_dropped_receiver :
    (run_client (Account.OfflineAccount "n" "u")
        { memory_percentage := 50, custom_java_path := ""
          keep_launcher_open := false } 0 true false 7 initialState).2
      = { runner_instance := some { terminator := 7 }
          dropped := [7], signaled := [] }
    ∧ terminate { runner_instance := some { terminator := 7 }
                  dropped := [7], signaled := [] }
      = (TerminateResult.panicked,
         { runner_instance := none, dropped := [7], signaled := [] }) :=
  ⟨rfl, rfl⟩

/-- C7: the command `terminate` called while the session slot is empty returns success
and leaves the state entirely unchanged (gui.rs lines 156-160: the
`if let Some` does not fire and `Ok(())` is returned). -/
theorem c7_terminate_idle_noop (st : GuiState)
    (h : st.runner_instance = none) :
    terminate st = (TerminateResult.ok, st) := by
  unfold terminate
  rw [h]

/-- Witness for C7 at the initial (idle) state. -/
theorem c7_witness :
    terminate initialState = (TerminateResult.ok, initialState) :=
  c7_terminate_idle_noop initialState rfl

/-- C4: the claim says the slot check and the slot population form a single
atomic check-and-set, so two concurrent `run_client` invocations can never
both observe the slot empty and both begin a session.  The code violates
this: the check (gui.rs line 117) and the store (lines 128-129) are separate
critical sections with the manifest-fetch await between them, and the store
does not re-check.  This theorem runs the interleaving in which both threads
perform their check (both observe the empty slot) before either stores: the
trace is enabled at every step and ends with both threads in the `launching`
phase — two concurrent sessions — the slot holding only thread b's sender
(thread a's sender was silently overwritten). -/
theorem c4_two_clients_can_both_begin :
    execTrace initSys
        [Act.check Tid.a, Act.check Tid.b,
         Act.fetchOk Tid.a 1, Act.fetchOk Tid.b 2]
      = some { shared := { runner_instance := some { terminator := 2 }
                           dropped := [], signaled := [] }
               phaseA := ThreadPhase.launching 1
               phaseB := ThreadPhase.launching 2 } :=
  rfl

/-- C5 counterexample: the claim says that after a successful begin and a
cancellation, a new begin attempted before the cancelled launch ends does
not succeed in starting a second session.  The code violates this:
`terminate` empties the slot with `lck.take()` (gui.rs line 156), so the
subsequent check of a new `run_client` observes the empty slot and proceeds.
The trace: thread a begins (launching on channel 1), `terminate` fires the
signal on channel 1 and empties the slot, then thread b checks, observes the
empty slot, and begins (launching on channel 2) — while thread a, the
cancelled launch, has not yet ended its session. -/
theorem c5_counterexample_second_session_after_cancel :
    execTrace initSys
        [Act.check Tid.a, Act.fetchOk Tid.a 1, Act.cancel,
         Act.check Tid.b, Act.fetchOk Tid.b 2]
      = some { shared := { runner_instance := some { terminator := 2 }
                           dropped := [], signaled := [1] }
               phaseA := ThreadPhase.launching 1
               phaseB := ThreadPhase.launching 2 } :=
  rfl

/-- C5 amended: request_cancellation (the `terminate` command) takes the sender and
leaves the slot physically empty, so a `begin_session` attempted after the
cancellation and before the cancelled launch's `end_session` succeeds in
starting a second session: from any state whose slot holds a sender with a
live receiver, the cancel step empties the slot without touching the
cancelled thread's phase, and a fresh invocation's check step then passes,
moving it past the "already running" guard while the cancelled launch is
still in flight. -/
theorem c5_amended_cancel_lets_next_begin (s : SysState) (ch : Nat)
    (hslot : s.shared.runner_instance = some { terminator := ch })
    (halive : ch ∉ s.shared.dropped) (hb : s.phaseB = ThreadPhase.start) :
    ∃ s2, stepAct s Act.cancel = some s2
      ∧ s2.shared.runner_instance = none
      ∧ s2.phaseA = s.phaseA
      ∧ ∃ s3, stepAct s2 (Act.check Tid.b) = some s3
          ∧ s3.phaseB = ThreadPhase.fetching
          ∧ s3.phaseA = s.phaseA := by
  have h1 : stepAct s Act.cancel
      = some { s with shared :=
                 { s.shared with runner_instance := none,
                                 signaled := ch :: s.shared.signaled } } := by
    simp [stepAct, hslot, halive]
  refine ⟨_, h1, rfl, rfl, ?_⟩
  have h2 : stepAct
      { s with shared := { s.shared with runner_instance := none,
                                         signaled := ch :: s.shared.signaled } }
      (Act.check Tid.b)
      = some (SysState.setPhase
          { s with shared := { s.shared with runner_instance := none,
                                             signaled :=
                                               ch :: s.shared.signaled } }
          Tid.b ThreadPhase.fetching) := by
    simp [stepAct, SysState.phase, hb]
  exact ⟨_, h2, rfl, rfl⟩

/-- Witness for the amended C5 at a concrete state: thread a launching on
channel 1, receiver alive, thread b poised at its check. -/
theorem c5_amended_witness :
    ∃ s2, stepAct { shared := { runner_instance := some { terminator := 1 }
                                dropped := [], signaled := [] }
                    phaseA := ThreadPhase.launching 1
                    phaseB := ThreadPhase.start } Act.cancel = some s2
      ∧ s2.shared.runner_instance = none
      ∧ s2.phaseA = ThreadPhase.launching 1
      ∧ ∃ s3, stepAct s2 (Act.check Tid.b) = some s3
          ∧ s3.phaseB = ThreadPhase.fetching
          ∧ s3.phaseA = ThreadPhase.launching 1 :=
  c5_amended_cancel_lets_next_begin _ 1 rfl (by simp) rfl

/-- Helper for C8: the spec's exact-arithmetic formula coincides with the
natural-number division form `floor(M / 1000000) * p / 100`. -/
theorem specAllocatedMemory_eq_natDiv (M p : ℕ) :
    specAllocatedMemory M p = (((M / 1000000) * p / 100 : ℕ) : ℤ) := by
  unfold specAllocatedMemory
  have h : ((M / 1000000 : ℕ) : ℚ) * ((p : ℚ) / 100)
      = ((((M / 1000000) * p : ℕ) : ℤ) : ℚ) / (((100 : ℕ)) : ℚ) := by
    generalize M / 1000000 = a
    push_cast
    ring
  rw [h, Rat.floor_intCast_div_natCast]
  norm_cast

set_option maxRecDepth 100000 in
/-- C8 counterexample: the claim's universal equality fails on the code's
`f64` arithmetic.  At total memory `M = 100,000,000` bytes and percentage
`p = 29`, the code computes `100.0 * (29.0 / 100.0)`: the nearest binary64
value to 29/100 is slightly below it, the product rounds to
28.999999999999996..., and `as i64` truncates it to 28 — while the claim's
formula `floor(M / 1,000,000) * (p / 100)` gives exactly 29. -/
theorem c8_counterexample_f64_truncates_low :
    computedMemory 100000000 29 = 28
    ∧ specAllocatedMemory 100000000 29 = 29 := by
  constructor
  · decide
  · rw [specAllocatedMemory_eq_natDiv]
    norm_num

set_option maxRecDepth 100000 in
/-- C8 amended: the allocated memory is the IEEE-754 binary64 evaluation of
`floor(M / 1,000,000) * (p / 100)` truncated toward zero, which can fall
below the exact formula by one megabyte (28 instead of 29 at
`M = 100,000,000`, `p = 29`); at the claim's instance
`M = 16,000,000,000` bytes and `p = 50` every intermediate double is exact,
and both the code and the exact formula give 8000 MB. -/
theorem c8_amended_memory_allocation :
    computedMemory 16000000000 50 = 8000
    ∧ specAllocatedMemory 16000000000 50 = 8000 := by
  constructor
  · decide
  · rw [specAllocatedMemory_eq_natDiv]
    norm_num

/-- C9: the handlers `handle_stdout` and `handle_stderr` (gui.rs lines 79-87) decode the
byte chunk before emitting anything.  If the bytes are not valid UTF-8 they
fail with the decoding error and the window receives nothing (the returned
error carries no emission; the handlers are total functions, so no crash).
If the bytes are valid, the call succeeds and the window's event list is
extended by exactly one `"process-output"` notification carrying the decoded
text. -/
theorem c9_output_chunk_encoding (window : Window) (data : List Nat) :
    (utf8Decode data = none →
      handle_stdout window data = Except.error HandlerError.fromUtf8Error
      ∧ handle_stderr window data = Except.error HandlerError.fromUtf8Error)
    ∧ (∀ s, utf8Decode data = some s →
      handle_stdout window data
        = Except.ok { events := window.events ++ [("process-output", s)] }
      ∧ handle_stderr window data
        = Except.ok { events := window.events ++ [("process-output", s)] }) := by
  constructor
  · intro h
    constructor <;> simp [handle_stdout, handle_stderr, h]
  · intro s h
    constructor <;> simp [handle_stdout, handle_stderr, h, emit]

/-- Witness for C9: the lone byte 0xFF is not valid UTF-8 and is rejected
with no emission; the bytes `[104, 105]` ("hi") are valid and produce exactly
one process-output event. -/
theorem c9_witness :
    handle_stdout { events := [] } [0xFF]
      = Except.error HandlerError.fromUtf8Error
    ∧ handle_stdout { events := [] } [104, 105]
      = Except.ok { events := [("process-output", [104, 105])] } :=
  ⟨((c9_output_chunk_encoding { events := [] } [0xFF]).1 rfl).1,
   ((c9_output_chunk_encoding { events := [] } [104, 105]).2
      [104, 105] rfl).1⟩

/-- C10: the handler `handle_stderr` behaves identically to `handle_stdout` on every
window state and every byte chunk (they are the same function on the model),
and both forward to the single `"process-output"` stream: the stderr handler
is exactly "decode, then emit one event named process-output with the
decoded payload", so no separate stderr event name exists. -/
theorem c10_stderr_stdout_same_stream (window : Window) (data : List Nat) :
    handle_stderr window data = handle_stdout window data
    ∧ handle_stderr window data
      = (utf8Decode data).elim (Except.error HandlerError.fromUtf8Error)
          (fun s => Except.ok (emit window "process-output" s)) := by
  constructor
  · rfl
  · cases h : utf8Decode data <;> simp [handle_stderr, h]

end Alcaty
